import Mathlib

/-!
Shallow embedding of `src/discordas.ts` from matrix-appservice-discord:
the CLI entry point that either generates an appservice registration file
or boots the bridge (config validation, store init, appservice wiring,
event-handler installation, startup).

JavaScript-specific behaviour that matters here is modelled explicitly:
`x || y` uses JS truthiness (0 and "" are falsy), `fs.readFileSync` throws
when the file is absent, `process.exit` terminates the process, and thrown
errors propagate to the top-level `run().catch(...)` handler.
-/

/-- Bool test: does the character list `hay` contain `needle` as a contiguous
sub-list?  Used to model JavaScript `String.prototype.includes`. -/
def listHasSub (needle : List Char) : List Char → Bool
  | [] => needle.isEmpty
  | c :: rest => List.isPrefixOf needle (c :: rest) || listHasSub needle rest

/-- JS `hay.includes(needle)`. -/
def strHasSub (hay needle : String) : Bool :=
  listHasSub needle.toList hay.toList

/-- JS truthiness of an optional number (`undefined` and `0` are falsy). -/
def truthyOptNat : Option Nat → Bool
  | none => false
  | some n => n != 0

/-- JS truthiness of an optional string (`undefined` and `""` are falsy). -/
def truthyOptStr : Option String → Bool
  | none => false
  | some s => !s.isEmpty

/-- JS `v || d` for strings: the default is used when `v` is falsy. -/
def jsOrStr (v : Option String) (d : String) : String :=
  if truthyOptStr v then v.getD d else d

/-- JS `v || fallback` for optional numbers. -/
def jsOrNat (v fallback : Option Nat) : Option Nat :=
  if truthyOptNat v then v else fallback

/-- Parsed command-line options (`commandOptions` in the source: config, url,
port, file, generate-registration, help). -/
structure Opts where
  config : Option String := none
  url : Option String := none
  port : Option Nat := none
  file : Option String := none
  generateRegistration : Bool := false
  help : Bool := false
deriving DecidableEq

/-- A single namespace claim of the registration (`exclusive` flag plus regex). -/
structure NamespaceClaim where
  exclusive : Bool
  regex : String
deriving DecidableEq

/-- The `namespaces` block of the registration. -/
structure Namespaces where
  aliases : List NamespaceClaim
  rooms : List NamespaceClaim
  users : List NamespaceClaim
deriving DecidableEq

/-- The registration object built by `generateRegistration`.  Tokens are drawn
from the uuid source, modelled as a fresh-draw counter: draw `n` yields token
`n` and advances the counter (uuid v4 is an external random generator; the
counter captures its freshness contract, each draw being distinct). -/
structure Registration where
  as_token : Nat
  hs_token : Nat
  id : String
  namespaces : Namespaces
  protocols : List String
  rate_limited : Bool
  sender_localpart : String
  url : String
deriving DecidableEq

/-- `generateRegistration(opts, registrationPath)` minus the file write (the
caller `run` performs the write in this model so the filesystem effect is in
one place).  Checks `!opts.url` first, then draws the two uuid tokens and
builds the fixed registration shape.  Returns the registration and the
advanced token counter. -/
def generateRegistration (opts : Opts) (ts : Nat) : Except String (Registration × Nat) :=
  if !truthyOptStr opts.url then
    .error "\x27url\x27 not given in command line opts, cannot generate registration file"
  else
    .ok ({ as_token := ts
           hs_token := ts + 1
           id := "discord-bridge"
           namespaces :=
             { aliases := [{ exclusive := true, regex := "#_discord_.*" }]
               rooms := []
               users := [{ exclusive := true, regex := "@_discord_.*" }] }
           protocols := ["discord"]
           rate_limited := false
           sender_localpart := "_discord_bot"
           url := opts.url.getD "" }, ts + 2)

/-- An argument of a log call: either a string (which has `includes`) or some
other value (on which `s.includes` is undefined, hence falsy). -/
inductive LogArg
  | str (s : String)
  | other
deriving DecidableEq

/-- The raw `args` parameter of `logFunc`: either already an array or a single
non-array value. -/
inductive LogArgs
  | arr (l : List LogArg)
  | single (a : LogArg)
deriving DecidableEq

/-- `if (!Array.isArray(args)) args = [args]`. -/
def normalizeArgs : LogArgs → List LogArg
  | .arr l => l
  | .single a => [a]

/-- The predicate of `args.find((s) => s.includes && s.includes("M_USER_IN_USE"))`. -/
def LogArg.matchesSpam : LogArg → Bool
  | .str s => strHasSub s "M_USER_IN_USE"
  | .other => false

/-- A log call forwarded by the multiplexer to a bridge logger. -/
structure ForwardedCall where
  level : String
  module : String
  args : List LogArg
deriving DecidableEq

/-- The `logFunc` closure of `setupLogging`: wrap a non-array argument, drop
the call when any argument contains `M_USER_IN_USE`, otherwise forward at the
given level to the logger tagged `"bot-sdk" + module`.  `none` means the call
was dropped. -/
def logFunc (level module : String) (args0 : LogArgs) : Option ForwardedCall :=
  let args := normalizeArgs args0
  if args.any LogArg.matchesSpam then
    none
  else
    some { level := level, module := "bot-sdk" ++ module, args := args }

/-- The four leveled entry points the sink installed by `setupLogging` exposes
to the bot SDK. -/
inductive SdkLevel
  | debug
  | error
  | info
  | warn
deriving DecidableEq

/-- The level string each SDK entry point passes to `logFunc` (`debug` is
routed as `"silly"`). -/
def sdkLevelName : SdkLevel → String
  | .debug => "silly"
  | .error => "error"
  | .info => "info"
  | .warn => "warn"

/-- The installed `LogService` sink: each SDK call goes through `logFunc`. -/
def installedSink (lvl : SdkLevel) (module : String) (args : LogArgs) : Option ForwardedCall :=
  logFunc (sdkLevelName lvl) module args

/-- Modelled from the spec: `DiscordBridgeConfig` lives in `./config`, which is
not among the given sources.  Per the spec it is constructed empty (listen port
optional, deprecated storage-path fields absent), then populated by parsing a
structured file and overlaid by environment variables.  Only the fields the
entry point reads are modelled. -/
structure DiscordBridgeConfig where
  bridgePort : Option Nat
  bindAddress : Option String
  domain : String
  homeserverUrl : String
  roomStorePath : Option String
  userStorePath : Option String
  metricsEnable : Bool
deriving DecidableEq

/-- Modelled from the spec: the state of `new DiscordBridgeConfig()` before any
file or environment data is applied ("constructed empty"). -/
def DiscordBridgeConfig.empty : DiscordBridgeConfig :=
  { bridgePort := none
    bindAddress := none
    domain := ""
    homeserverUrl := ""
    roomStorePath := none
    userStorePath := none
    metricsEnable := false }

/-- The fields a parsed configuration document may carry (each optional: absent
fields leave the constructed default in place). -/
structure FileConfig where
  bridgePort : Option Nat := none
  bindAddress : Option String := none
  domain : Option String := none
  homeserverUrl : Option String := none
  roomStorePath : Option String := none
  userStorePath : Option String := none
  metricsEnable : Option Bool := none
deriving DecidableEq

/-- Overlay an optional update onto a base value. -/
def overlayO {α : Type} (base upd : Option α) : Option α :=
  match upd with
  | some v => some v
  | none => base

/-- Modelled from the spec: `config.applyConfig(readConfig)` populates the
configuration from the parsed document, field by field. -/
def applyConfig (c : DiscordBridgeConfig) (f : FileConfig) : DiscordBridgeConfig :=
  { bridgePort := overlayO c.bridgePort f.bridgePort
    bindAddress := overlayO c.bindAddress f.bindAddress
    domain := (f.domain).getD c.domain
    homeserverUrl := (f.homeserverUrl).getD c.homeserverUrl
    roomStorePath := overlayO c.roomStorePath f.roomStorePath
    userStorePath := overlayO c.userStorePath f.userStorePath
    metricsEnable := (f.metricsEnable).getD c.metricsEnable }

/-- Environment-variable overrides relevant to the modelled fields. -/
structure EnvOverrides where
  bridgePort : Option Nat := none
  roomStorePath : Option String := none
  userStorePath : Option String := none
deriving DecidableEq

/-- Modelled from the spec: `config.applyEnvironmentOverrides(process.env)`
overlays environment variables onto the parsed configuration, after file load. -/
def applyEnvironmentOverrides (c : DiscordBridgeConfig) (e : EnvOverrides) : DiscordBridgeConfig :=
  { c with
    bridgePort := overlayO c.bridgePort e.bridgePort
    roomStorePath := overlayO c.roomStorePath e.roomStorePath
    userStorePath := overlayO c.userStorePath e.userStorePath }

/-- The legacy-config condition of the run path, on the fully applied
configuration: either deprecated storage-path key is present. -/
def hasLegacyKeys (c : DiscordBridgeConfig) : Bool :=
  c.roomStorePath.isSome || c.userStorePath.isSome

/-- Result of `yaml.safeLoad` on a config file: either a scalar (`typeof` is
not `"object"`) or a mapping carrying config fields. -/
inductive ConfigDoc
  | scalar
  | table (f : FileConfig)
deriving DecidableEq

/-- Contents of a file in the modelled filesystem: a YAML config document, or
a written registration artifact. -/
inductive FileData
  | cfg (d : ConfigDoc)
  | regFile (r : Registration)
deriving DecidableEq

/-- Reading a registration artifact as a config document parses as a mapping
carrying none of the config fields. -/
def FileData.asConfigDoc : FileData → ConfigDoc
  | .cfg d => d
  | .regFile _ => .table {}

/-- The modelled filesystem: an association list from path to contents. -/
structure FS where
  files : List (String × FileData)
deriving DecidableEq

/-- Contents at a path, `none` when no such file exists. -/
def FS.lookup (fs : FS) (p : String) : Option FileData :=
  (fs.files.find? (fun e => e.1 == p)).map (fun e => e.2)

/-- `fs.existsSync(p)`. -/
def FS.existsAt (fs : FS) (p : String) : Bool :=
  (fs.lookup p).isSome

/-- `fs.writeFileSync(p, d)` (used only on paths that do not yet exist). -/
def FS.write (fs : FS) (p : String) (d : FileData) : FS :=
  ⟨fs.files ++ [(p, d)]⟩

/-- Observable events of a run, in program order. -/
inductive Ev
  | printUsage
  | exit (code : Nat)
  | checkRegExists
  | genTokens
  | writeFile (path : String)
  | readFile (path : String)
  | readRegistration (path : String)
  | logConfigure
  | storeCtor
  | appserviceCtor (port : Nat)
  | metricsInit
  | storeInit
  | logError (parts : List String)
  | logInfo (msg : String)
  | subscribeQueryRoom
  | subscribeRoomEvent
  | bindThirdparty
  | appserviceBegin
  | discordbotInit
  | discordbotRun
  | onAliasQueryCall (roomAlias : String)
  | createRoomCall (roomId : String)
  | onAliasQueriedCall (roomAlias roomId : String)
deriving DecidableEq

/-- How a run ends: normal return, a thrown error, or `process.exit`. -/
inductive Outcome
  | returned
  | threw (msg : String)
  | exited (code : Nat)
deriving DecidableEq

/-- Environment of a run: filesystem, process environment, the uuid counter,
and whether the awaited store / discordbot startup steps succeed. -/
structure World where
  fs : FS
  env : EnvOverrides := {}
  tokens : Nat := 0
  storeInitOk : Bool := true
  bridgeStartOk : Bool := true
  bridgeErr : String := ""
deriving DecidableEq

/-- Result of a run: the event trace, the outcome, and the final filesystem. -/
structure RunResult where
  trace : List Ev
  outcome : Outcome
  fs : FS
deriving DecidableEq

/-- The registration-generation path of `run` (the `opts["generate-registration"]`
branch): fail if the destination exists, otherwise generate and write. -/
def runGenReg (opts : Opts) (w : World) (registrationPath : String) : RunResult :=
  if w.fs.existsAt registrationPath then
    { trace := [.checkRegExists]
      outcome := .threw "Not writing new registration file, file already exists"
      fs := w.fs }
  else
    match generateRegistration opts w.tokens with
    | .error e => { trace := [.checkRegExists], outcome := .threw e, fs := w.fs }
    | .ok (reg, _) =>
      { trace := [.checkRegExists, .genTokens, .writeFile registrationPath]
        outcome := .returned
        fs := w.fs.write registrationPath (.regFile reg) }

/-- The tail of the service path after validation: read the registration file,
construct store and appservice, optionally attach metrics, await store init
(fatal on failure), install both event subscriptions, bind third-party, start
the appservice, then init and run the discordbot (fatal on failure). -/
def afterValidation (w : World) (config : DiscordBridgeConfig) (portN : Nat)
    (registrationPath : String) : RunResult :=
  match w.fs.lookup registrationPath with
  | none =>
    { trace := [.readRegistration registrationPath]
      outcome := .threw "ENOENT: no such file or directory"
      fs := w.fs }
  | some _ =>
    let pre : List Ev :=
      [.readRegistration registrationPath, .storeCtor, .appserviceCtor portN]
        ++ (if config.metricsEnable then [.logInfo "Enabled metrics", .metricsInit] else [])
        ++ [.storeInit]
    if !w.storeInitOk then
      { trace := pre ++ [.logError ["Failed to init database. Exiting."], .exit 1]
        outcome := .exited 1
        fs := w.fs }
    else
      let started : List Ev := pre ++
        [.subscribeQueryRoom, .subscribeRoomEvent, .bindThirdparty, .appserviceBegin,
         .logInfo ("Started listening on port " ++ toString portN)]
      if w.bridgeStartOk then
        { trace := started ++ [.discordbotInit, .discordbotRun,
                               .logInfo "Discordbot started successfully"]
          outcome := .returned
          fs := w.fs }
      else
        { trace := started ++ [.discordbotInit, .logError [w.bridgeErr],
                               .logError ["Failure during startup. Exiting"], .exit 1]
          outcome := .exited 1
          fs := w.fs }

/-- The service path of `run` (no help, no generate-registration): construct a
fresh config, resolve the port from CLI falling back to the freshly
constructed (still empty) config, check it, read and type-check the config
file, apply fields then environment overrides, configure logging, reject
legacy storage-path keys, then continue with `afterValidation`. -/
def runService (opts : Opts) (w : World) (configPath registrationPath : String) : RunResult :=
  let port := jsOrNat opts.port DiscordBridgeConfig.empty.bridgePort
  if !truthyOptNat port then
    { trace := [], outcome := .threw "Port not given in command line or config file", fs := w.fs }
  else
    match w.fs.lookup configPath with
    | none =>
      { trace := [.readFile configPath]
        outcome := .threw "ENOENT: no such file or directory"
        fs := w.fs }
    | some fd =>
      match fd.asConfigDoc with
      | .scalar =>
        { trace := [.readFile configPath]
          outcome := .threw "Config is not of type object"
          fs := w.fs }
      | .table fc =>
        let config := applyEnvironmentOverrides (applyConfig DiscordBridgeConfig.empty fc) w.env
        if hasLegacyKeys config then
          { trace := [.readFile configPath, .logConfigure,
              .logError ["The keys \x27roomStorePath\x27 and/or \x27userStorePath\x27 is still defined in the config. Please see docs/bridge-migrations.md on https://github.com/Half-Shot/matrix-appservice-discord/"]]
            outcome := .threw "Bridge has legacy configuration options and is unable to start"
            fs := w.fs }
        else
          let rest := afterValidation w config (port.getD 0) registrationPath
          { rest with trace := [.readFile configPath, .logConfigure] ++ rest.trace }

/-- The `run` entry point: help short-circuits with usage and exit 0; the
generate-registration path is mutually exclusive with the service path. -/
def run (opts : Opts) (w : World) : RunResult :=
  if opts.help then
    { trace := [.printUsage, .exit 0], outcome := .exited 0, fs := w.fs }
  else
    let configPath := jsOrStr opts.config "config.yaml"
    let registrationPath := jsOrStr opts.file "discord-registration.yaml"
    if opts.generateRegistration then
      runGenReg opts w registrationPath
    else
      runService opts w configPath registrationPath

/-- The whole process: `run().catch((err) => { log.error(...); process.exit(1); })` —
any error thrown out of `run` is logged and turned into exit code 1. -/
def runMain (opts : Opts) (w : World) : RunResult :=
  let r := run opts w
  match r.outcome with
  | .threw e =>
    { trace := r.trace ++ [.logError ["A fatal error occurred during startup:", e], .exit 1]
      outcome := .exited 1
      fs := r.fs }
  | _ => r

/-- The room-creation options the room handler resolves for an alias; `roomId`
stands for the `__roomId` field read after room creation. -/
structure CreateRoomOpts where
  roomId : String
deriving DecidableEq

/-- The collaborators the `query.room` handler calls into: the bridge room
handler (`OnAliasQuery`, `OnAliasQueried`) and the room-creation continuation
of the transport; each may resolve or reject. -/
structure AliasHandlerWorld where
  onAliasQuery : String → Except String CreateRoomOpts
  createRoom : CreateRoomOpts → Except String Unit
  onAliasQueried : String → String → Except String Unit

/-- Result of the try-block body: completed, or raised an error. -/
inductive HRes
  | done
  | raised (e : String)
deriving DecidableEq

/-- The try-block of the `query.room` subscription: resolve creation options
for the alias, invoke the creation continuation, then notify the room handler
of the created room id.  The first rejection aborts the chain. -/
def aliasQueryBody (hw : AliasHandlerWorld) (roomAlias : String) : List Ev × HRes :=
  match hw.onAliasQuery roomAlias with
  | .error e => ([.onAliasQueryCall roomAlias], .raised e)
  | .ok opts =>
    match hw.createRoom opts with
    | .error e => ([.onAliasQueryCall roomAlias, .createRoomCall opts.roomId], .raised e)
    | .ok _ =>
      match hw.onAliasQueried roomAlias opts.roomId with
      | .error e =>
        ([.onAliasQueryCall roomAlias, .createRoomCall opts.roomId,
          .onAliasQueriedCall roomAlias opts.roomId], .raised e)
      | .ok _ =>
        ([.onAliasQueryCall roomAlias, .createRoomCall opts.roomId,
          .onAliasQueriedCall roomAlias opts.roomId], .done)

/-- The installed `query.room` handler: the try-block wrapped in the catch that
logs `Exception thrown while handling "query.room" event` with the error.  The
handler always completes with a trace; it neither rethrows nor exits. -/
def queryRoomHandler (hw : AliasHandlerWorld) (roomAlias : String) : List Ev :=
  match aliasQueryBody hw roomAlias with
  | (t, .done) => t
  | (t, .raised e) =>
    t ++ [.logError ["Exception thrown while handling \"query.room\" event", e]]

/-- Does a log event mention the string `s` in any of its parts? -/
def logMentions (s : String) : Ev → Bool
  | .logError parts => parts.any (fun p => strHasSub p s)
  | .logInfo m => strHasSub m s
  | _ => false

/-- Scan of a trace checking that every `appserviceBegin` is preceded by both
subscription installations; `q`/`r` record whether the query-room and
room-event subscriptions have been seen so far. -/
def subsThenBegin (q r : Bool) : List Ev → Bool
  | [] => true
  | .appserviceBegin :: rest => q && r && subsThenBegin q r rest
  | .subscribeQueryRoom :: rest => subsThenBegin true r rest
  | .subscribeRoomEvent :: rest => subsThenBegin q true rest
  | _ :: rest => subsThenBegin q r rest


/-- A registration value used to populate pre-existing registration files in
test worlds. -/
def dummyReg : Registration :=
  { as_token := 0, hs_token := 1, id := "discord-bridge"
    namespaces := { aliases := [], rooms := [], users := [] }
    protocols := [], rate_limited := false, sender_localpart := "", url := "" }

/-- A world whose config file maps `bridge.port` to 6000 and whose
registration file exists: a fully valid deployment apart from CLI options. -/
def c1World : World :=
  { fs := ⟨[("config.yaml", .cfg (.table { bridgePort := some 6000 })),
            ("discord-registration.yaml", .regFile dummyReg)]⟩ }

/-- Truthiness of `v || none` equals truthiness of `v`. -/
theorem truthy_jsOrNat_none (v : Option Nat) :
    truthyOptNat (jsOrNat v none) = truthyOptNat v := by
  unfold jsOrNat
  split <;> simp_all [truthyOptNat]

/-- `find?` skips a block in which nothing matches. -/
theorem find_skip_left {α : Type} (l1 l2 : List α) (f : α → Bool)
    (h : l1.find? f = none) : (l1 ++ l2).find? f = l2.find? f := by
  induction l1 with
  | nil => simp
  | cons a t ih =>
    by_cases hf : f a
    · rw [List.find?_cons_of_pos _ hf] at h
      exact absurd h (by simp)
    · rw [List.find?_cons_of_neg _ hf] at h
      rw [List.cons_append, List.find?_cons_of_neg _ hf]
      exact ih h

/-- Writing to a path with no existing file makes that file readable. -/
theorem FS.lookup_write_fresh (fs : FS) (p : String) (d : FileData)
    (h : fs.lookup p = none) : (fs.write p d).lookup p = some d := by
  unfold FS.lookup at h ⊢
  unfold FS.write
  have hf : fs.files.find? (fun e => e.1 == p) = none := by
    cases hx : fs.files.find? (fun e => e.1 == p) with
    | none => rfl
    | some v => rw [hx] at h; simp at h
  rw [find_skip_left _ _ _ hf]
  simp [List.find?]

/-- C1: the claim says the effective port falls back to the port of the parsed
configuration file and that validation succeeds when the config port alone is
supplied.  On the code, `const port = opts.port || config.bridge.port` is
evaluated on a freshly constructed (still empty) config, before the config
file is even read: in `c1World` the config file maps the port to 6000, yet a
run without a CLI port throws the missing-port error without ever reading the
config file, while the identical world with the CLI port supplied starts
normally. -/
theorem port_check_ignores_config_file :
    (run {} c1World).outcome = .threw "Port not given in command line or config file"
    ∧ Ev.readFile "config.yaml" ∉ (run {} c1World).trace
    ∧ (run { port := some 6000 } c1World).outcome = .returned := by decide

/-- C10: when the help flag is supplied, the run prints usage and exits with
status 0 immediately: the trace holds nothing else (no registration existence
check, no token generation, no file write) and the filesystem is unchanged,
whatever the other options say. -/
theorem help_short_circuits (opts : Opts) (w : World) (hh : opts.help = true) :
    run opts w = { trace := [.printUsage, .exit 0], outcome := .exited 0, fs := w.fs } := by
  simp [run, hh]

/-- C10 witness: help together with generate-registration on a world whose
registration file already exists still only prints usage and exits 0. -/
theorem help_short_circuits_witness :
    run { help := true, generateRegistration := true, url := some "https://h",
          file := some "discord-registration.yaml" } c1World
      = { trace := [.printUsage, .exit 0], outcome := .exited 0, fs := c1World.fs } :=
  help_short_circuits _ _ rfl

/-- C2 counterexample: a config file that parses to a scalar (not a mapping)
and no port anywhere.  The claimed order predicts the not-an-object error
first; the code throws the missing-port error, because the port check runs
before the config file is read. -/
theorem object_check_not_first :
    (run {} { fs := ⟨[("config.yaml", .cfg .scalar)]⟩ }).outcome
        = .threw "Port not given in command line or config file"
    ∧ (run {} { fs := ⟨[("config.yaml", .cfg .scalar)]⟩ }).outcome
        ≠ .threw "Config is not of type object" := by decide

/-- C2 (amended): on every run-path start the checks fire in the order
missing-port first, then not-an-object, then legacy keys; the legacy check
sees the configuration after field application and environment overrides, and
when it fails no resource is opened: the registration file is not read and no
store or appservice is constructed, initialized, or started. -/
theorem validation_order (opts : Opts) (w : World)
    (hh : opts.help = false) (hg : opts.generateRegistration = false) :
    (truthyOptNat opts.port = false →
      (run opts w).outcome = .threw "Port not given in command line or config file")
    ∧ (truthyOptNat opts.port = true →
       w.fs.lookup (jsOrStr opts.config "config.yaml") = some (.cfg .scalar) →
      (run opts w).outcome = .threw "Config is not of type object")
    ∧ (∀ fc : FileConfig, truthyOptNat opts.port = true →
       w.fs.lookup (jsOrStr opts.config "config.yaml") = some (.cfg (.table fc)) →
       hasLegacyKeys (applyEnvironmentOverrides (applyConfig DiscordBridgeConfig.empty fc) w.env)
         = true →
      (run opts w).outcome = .threw "Bridge has legacy configuration options and is unable to start"
      ∧ (∀ p, Ev.readRegistration p ∉ (run opts w).trace)
      ∧ Ev.storeCtor ∉ (run opts w).trace
      ∧ Ev.storeInit ∉ (run opts w).trace
      ∧ (∀ n, Ev.appserviceCtor n ∉ (run opts w).trace)
      ∧ Ev.appserviceBegin ∉ (run opts w).trace) := by
  refine ⟨?_, ?_, ?_⟩
  · intro hp
    simp [run, hh, hg, runService, DiscordBridgeConfig.empty, truthy_jsOrNat_none, hp]
  · intro hp hl
    simp [run, hh, hg, runService, DiscordBridgeConfig.empty, truthy_jsOrNat_none, hp, hl,
      FileData.asConfigDoc]
  · intro fc hp hl hleg
    simp only [DiscordBridgeConfig.empty] at hleg
    simp [run, hh, hg, runService, DiscordBridgeConfig.empty, truthy_jsOrNat_none, hp, hl,
      FileData.asConfigDoc, hleg]

/-- C2 witness: a legacy `roomStorePath` key in the config file, with the port
supplied on the CLI, aborts with the legacy-config error. -/
theorem validation_order_witness :
    (run { port := some 6505 }
        { fs := ⟨[("config.yaml", .cfg (.table { roomStorePath := some "room-store.db" }))]⟩ }).outcome
      = .threw "Bridge has legacy configuration options and is unable to start" :=
  ((validation_order { port := some 6505 }
      { fs := ⟨[("config.yaml", .cfg (.table { roomStorePath := some "room-store.db" }))]⟩ }
      rfl rfl).2.2 { roomStorePath := some "room-store.db" } (by decide) (by decide) (by decide)).1

/-- C4: invoking registration generation when a file already exists at the
destination throws the already-exists error before any token is generated and
leaves the filesystem unchanged: no token draw and no file write appear in the
trace. -/
theorem existing_registration_aborts (opts : Opts) (w : World)
    (hh : opts.help = false) (hg : opts.generateRegistration = true)
    (hex : w.fs.existsAt (jsOrStr opts.file "discord-registration.yaml") = true) :
    (run opts w).outcome = .threw "Not writing new registration file, file already exists"
    ∧ (run opts w).fs = w.fs
    ∧ Ev.genTokens ∉ (run opts w).trace
    ∧ (∀ p, Ev.writeFile p ∉ (run opts w).trace) := by
  simp [run, runGenReg, hh, hg, hex]

/-- C4 witness: generating onto `c1World`, where `discord-registration.yaml`
already exists, aborts with the already-exists error. -/
theorem existing_registration_aborts_witness :
    (run { generateRegistration := true, url := some "https://bridge.example" } c1World).outcome
      = .threw "Not writing new registration file, file already exists" :=
  (existing_registration_aborts { generateRegistration := true, url := some "https://bridge.example" }
    c1World rfl rfl (by decide)).1

/-- C5: successful registration generation with a non-empty URL and a fresh
destination writes an artifact with sender local identifier `_discord_bot`,
the single exclusive alias claim `#_discord_.*`, the single exclusive user
claim `@_discord_.*`, an empty rooms namespace, protocol list `["discord"]`,
and the supplied URL. -/
theorem registration_content (opts : Opts) (w : World) (u : String)
    (hh : opts.help = false) (hg : opts.generateRegistration = true)
    (hu : opts.url = some u) (hne : u.isEmpty = false)
    (hex : w.fs.existsAt (jsOrStr opts.file "discord-registration.yaml") = false) :
    ∃ r : Registration,
      (run opts w).outcome = .returned
      ∧ (run opts w).fs.lookup (jsOrStr opts.file "discord-registration.yaml")
          = some (.regFile r)
      ∧ r.sender_localpart = "_discord_bot"
      ∧ r.namespaces.aliases = [{ exclusive := true, regex := "#_discord_.*" }]
      ∧ r.namespaces.users = [{ exclusive := true, regex := "@_discord_.*" }]
      ∧ r.namespaces.rooms = []
      ∧ r.protocols = ["discord"]
      ∧ r.url = u := by
  have hlk : w.fs.lookup (jsOrStr opts.file "discord-registration.yaml") = none := by
    unfold FS.existsAt at hex
    cases hx : w.fs.lookup (jsOrStr opts.file "discord-registration.yaml") with
    | none => rfl
    | some v => rw [hx] at hex; simp at hex
  have hexx : w.fs.existsAt (jsOrStr opts.file "discord-registration.yaml") = false := hex
  refine ⟨{ as_token := w.tokens, hs_token := w.tokens + 1, id := "discord-bridge"
            namespaces :=
              { aliases := [{ exclusive := true, regex := "#_discord_.*" }]
                rooms := []
                users := [{ exclusive := true, regex := "@_discord_.*" }] }
            protocols := ["discord"], rate_limited := false
            sender_localpart := "_discord_bot", url := u }, ?_⟩
  simp [run, runGenReg, generateRegistration, hh, hg, hexx, hu, truthyOptStr, hne,
    FS.lookup_write_fresh _ _ _ hlk]

/-- C5 witness: the end-to-end scenario of the spec — generate-registration
with url `https://bridge.example:9000` and file `reg.yaml` on an empty
directory. -/
theorem registration_content_witness :
    ∃ r : Registration,
      (run { url := some "https://bridge.example:9000", file := some "reg.yaml",
             generateRegistration := true } { fs := ⟨[]⟩ }).outcome = .returned
      ∧ (run { url := some "https://bridge.example:9000", file := some "reg.yaml",
               generateRegistration := true } { fs := ⟨[]⟩ }).fs.lookup
            (jsOrStr (some "reg.yaml") "discord-registration.yaml")
          = some (.regFile r)
      ∧ r.sender_localpart = "_discord_bot"
      ∧ r.namespaces.aliases = [{ exclusive := true, regex := "#_discord_.*" }]
      ∧ r.namespaces.users = [{ exclusive := true, regex := "@_discord_.*" }]
      ∧ r.namespaces.rooms = []
      ∧ r.protocols = ["discord"]
      ∧ r.url = "https://bridge.example:9000" :=
  registration_content
    { url := some "https://bridge.example:9000", file := some "reg.yaml",
      generateRegistration := true }
    { fs := ⟨[]⟩ } "https://bridge.example:9000" rfl rfl rfl rfl (by decide)

/-- C9: two successive invocations of registration generation, the second
drawing from the token source where the first left it, produce distinct
as-tokens and distinct hs-tokens; within one artifact the two tokens are two
separate draws and so also differ. -/
theorem token_uniqueness (o1 o2 : Opts) (ts ts1 ts2 : Nat) (r1 r2 : Registration)
    (h1 : generateRegistration o1 ts = .ok (r1, ts1))
    (h2 : generateRegistration o2 ts1 = .ok (r2, ts2)) :
    r1.as_token ≠ r2.as_token ∧ r1.hs_token ≠ r2.hs_token
    ∧ r1.as_token ≠ r1.hs_token ∧ r2.as_token ≠ r2.hs_token := by
  unfold generateRegistration at h1 h2
  by_cases t1 : truthyOptStr o1.url
  · by_cases t2 : truthyOptStr o2.url
    · simp [t1] at h1
      simp [t2] at h2
      obtain ⟨hr1, hts1⟩ := h1
      obtain ⟨hr2, hts2⟩ := h2
      subst hr1 hr2 hts1
      refine ⟨?_, ?_, ?_, ?_⟩ <;> simp
    · simp [t2] at h2
  · simp [t1] at h1

/-- A registration as generated from counter state 0 with url `https://a`. -/
def witnessRegA : Registration :=
  { as_token := 0, hs_token := 1, id := "discord-bridge"
    namespaces :=
      { aliases := [{ exclusive := true, regex := "#_discord_.*" }]
        rooms := []
        users := [{ exclusive := true, regex := "@_discord_.*" }] }
    protocols := ["discord"], rate_limited := false
    sender_localpart := "_discord_bot", url := "https://a" }

/-- The registration of the following generation, from counter state 2. -/
def witnessRegB : Registration :=
  { witnessRegA with as_token := 2, hs_token := 3 }

/-- C9 witness: two concrete successive generations from counter state 0. -/
theorem token_uniqueness_witness :
    witnessRegA.as_token ≠ witnessRegB.as_token
    ∧ witnessRegA.hs_token ≠ witnessRegB.hs_token
    ∧ witnessRegA.as_token ≠ witnessRegA.hs_token
    ∧ witnessRegB.as_token ≠ witnessRegB.hs_token :=
  token_uniqueness { url := some "https://a" } { url := some "https://a" } 0 2 4
    witnessRegA witnessRegB rfl rfl

/-- C7: behaviour of the installed log multiplexer: a non-array argument is
forwarded exactly as its one-element wrapping would be; a call is dropped
precisely when some (normalized) argument is a string containing
`M_USER_IN_USE`; a forwarded call keeps its level and arguments and carries
the module tag prefixed with `bot-sdk`. -/
theorem log_multiplexer_behaviour (level module : String) (args : LogArgs) :
    (∀ a : LogArg, logFunc level module (.single a) = logFunc level module (.arr [a]))
    ∧ (logFunc level module args = none ↔ ∃ a ∈ normalizeArgs args, a.matchesSpam = true)
    ∧ (∀ fc : ForwardedCall, logFunc level module args = some fc →
        fc.level = level ∧ fc.module = "bot-sdk" ++ module ∧ fc.args = normalizeArgs args) := by
  refine ⟨fun a => rfl, ?_, ?_⟩
  · unfold logFunc
    by_cases h : (normalizeArgs args).any LogArg.matchesSpam
    · simp only [h, if_true]
      simpa [List.any_eq_true] using h
    · simp only [h, if_false]
      simp only [List.any_eq_true] at h
      simpa using h
  · intro fc hfc
    unfold logFunc at hfc
    by_cases h : (normalizeArgs args).any LogArg.matchesSpam
    · simp [h] at hfc
    · simp [h] at hfc
      subst hfc
      exact ⟨rfl, rfl, rfl⟩

/-- C7 witness: a call containing `M_USER_IN_USE` is dropped; an unrelated
call is forwarded with the prefixed module tag. -/
theorem log_multiplexer_behaviour_witness :
    logFunc "info" "Appservice" (.single (.str "refused: M_USER_IN_USE")) = none
    ∧ logFunc "warn" "Appservice" (.arr [.str "connection reset"])
        = some { level := "warn", module := "bot-sdkAppservice", args := [.str "connection reset"] } :=
  ⟨(log_multiplexer_behaviour "info" "Appservice"
      (.single (.str "refused: M_USER_IN_USE"))).2.1.mpr
    ⟨.str "refused: M_USER_IN_USE", by decide, by decide⟩, by decide⟩

/-- A collaborator world whose alias resolution always rejects. -/
def failingAliasWorld : AliasHandlerWorld :=
  { onAliasQuery := fun _ => .error "boom"
    createRoom := fun _ => .ok ()
    onAliasQueried := fun _ _ => .ok () }

/-- C3 counterexample: for this alias the handler chain raises, the failure is
caught and logged — but no emitted log call mentions the originating alias in
any of its parts: the catch logs only the fixed message and the error. -/
theorem alias_not_in_failure_log :
    (aliasQueryBody failingAliasWorld "#_discord_general:example.com").2 = .raised "boom"
    ∧ ∀ ev ∈ queryRoomHandler failingAliasWorld "#_discord_general:example.com",
        logMentions "#_discord_general:example.com" ev = false := by decide

/-- C3 (amended): whatever the collaborators do, the `query.room` handler never
exits the process; and whenever its try-block raises, the handler completes
normally having appended exactly one error log carrying the fixed message
`Exception thrown while handling "query.room" event` together with the raised
error (the originating alias is not part of the log call). -/
theorem alias_query_failure_contained (hw : AliasHandlerWorld) (roomAlias : String) :
    (∀ c, Ev.exit c ∉ queryRoomHandler hw roomAlias)
    ∧ (∀ t e, aliasQueryBody hw roomAlias = (t, .raised e) →
        queryRoomHandler hw roomAlias
          = t ++ [.logError ["Exception thrown while handling \"query.room\" event", e]]) := by
  constructor
  · intro c
    unfold queryRoomHandler aliasQueryBody
    cases hq : hw.onAliasQuery roomAlias with
    | error e => simp [hq]
    | ok opts =>
      cases hc : hw.createRoom opts with
      | error e => simp [hq, hc]
      | ok _ =>
        cases hn : hw.onAliasQueried roomAlias opts.roomId with
        | error e => simp [hq, hc, hn]
        | ok _ => simp [hq, hc, hn]
  · intro t e h
    simp [queryRoomHandler, h]

/-- C3 witness: for the always-rejecting collaborators, the handler completes
with the body trace plus the single catch log. -/
theorem alias_query_failure_contained_witness :
    queryRoomHandler failingAliasWorld "#_discord_general:example.com"
      = [.onAliasQueryCall "#_discord_general:example.com"]
        ++ [.logError ["Exception thrown while handling \"query.room\" event", "boom"]] :=
  (alias_query_failure_contained failingAliasWorld "#_discord_general:example.com").2
    [.onAliasQueryCall "#_discord_general:example.com"] "boom" rfl

/-- Every trace `afterValidation` can produce passes the subscriptions-before-
begin scan from any initial state: the two subscription events literally
precede the begin event in the emitted list. -/
theorem afterValidation_subs (w : World) (c : DiscordBridgeConfig) (p : Nat) (rp : String)
    (q r : Bool) : subsThenBegin q r (afterValidation w c p rp).trace = true := by
  unfold afterValidation
  repeat' split
  all_goals simp [subsThenBegin]

/-- C8: in every run, each transport start (`appservice.begin`) in the trace is
preceded by the installation of both event subscriptions (`query.room` and
`room.event`): the scan `subsThenBegin`, which accepts a trace exactly when
every begin event is preceded by both subscription events, accepts every trace
the entry point can produce. -/
theorem subscriptions_before_begin (opts : Opts) (w : World) :
    subsThenBegin false false (run opts w).trace = true := by
  unfold run
  by_cases hh : opts.help = true
  · simp [hh, subsThenBegin]
  · by_cases hg : opts.generateRegistration = true
    · simp only [hh, hg, if_true, if_false, Bool.false_eq_true]
      unfold runGenReg
      by_cases hex : w.fs.existsAt (jsOrStr opts.file "discord-registration.yaml") = true
      · simp [hh, hex, subsThenBegin]
      · cases hgen : generateRegistration opts w.tokens with
        | error e => simp [hh, hex, hgen, subsThenBegin]
        | ok p => cases p with
          | mk reg ts => simp [hh, hex, hgen, subsThenBegin]
    · simp only [hh, hg, if_false, Bool.false_eq_true]
      unfold runService
      by_cases hp : truthyOptNat (jsOrNat opts.port DiscordBridgeConfig.empty.bridgePort) = true
      · cases hl : w.fs.lookup (jsOrStr opts.config "config.yaml") with
        | none => simp [hh, hg, hp, hl, subsThenBegin]
        | some fd =>
          cases hd : fd.asConfigDoc with
          | scalar => simp [hh, hg, hp, hl, hd, subsThenBegin]
          | table fc =>
            by_cases hleg : hasLegacyKeys
                (applyEnvironmentOverrides (applyConfig DiscordBridgeConfig.empty fc) w.env) = true
            · simp [hh, hg, hp, hl, hd, hleg, subsThenBegin]
            · simp [hh, hg, hp, hl, hd, hleg, subsThenBegin, afterValidation_subs]
      · simp [hh, hg, hp, subsThenBegin]

/-- The C6 safety property of a trace/outcome pair: if store initialization was
attempted then the run exited with status 1 after logging the store failure,
the transport was never started, and no started-listening line was logged. -/
def storeFailSafe (t : List Ev) (o : Outcome) : Prop :=
  (Ev.storeInit ∈ t →
    o = .exited 1 ∧ Ev.logError ["Failed to init database. Exiting."] ∈ t)
  ∧ Ev.appserviceBegin ∉ t
  ∧ ∀ m, Ev.logInfo m ∈ t → strHasSub m "Started listening" = false

/-- With a failing store, every `afterValidation` continuation satisfies the
C6 safety property. -/
theorem afterValidation_store_fail (w : World) (c : DiscordBridgeConfig) (p : Nat)
    (rp : String) (hs : w.storeInitOk = false) :
    storeFailSafe (afterValidation w c p rp).trace (afterValidation w c p rp).outcome := by
  have hni : strHasSub "Enabled metrics" "Started listening" = false := by decide
  unfold afterValidation storeFailSafe
  cases hl : w.fs.lookup rp with
  | none => simp
  | some fd =>
    by_cases hm : c.metricsEnable = true
    · simp [hl, hm, hs, hni]
    · simp [hl, hm, hs, hni]

/-- The C6 safety property is preserved by prepending the config read and the
logging-configuration events. -/
theorem storeFailSafe_prepend (cp : String) (t : List Ev) (o : Outcome)
    (h : storeFailSafe t o) :
    storeFailSafe (Ev.readFile cp :: Ev.logConfigure :: t) o := by
  obtain ⟨h1, h2, h3⟩ := h
  refine ⟨?_, ?_, ?_⟩
  · intro hm
    simp only [List.mem_cons] at hm
    rcases hm with h | h | h
    · exact absurd h (by simp)
    · exact absurd h (by simp)
    · obtain ⟨ho, hl⟩ := h1 h
      exact ⟨ho, by simp [hl]⟩
  · simp [h2]
  · intro m hm
    simp only [List.mem_cons] at hm
    rcases hm with h | h | h
    · exact absurd h (by simp)
    · exact absurd h (by simp)
    · exact h3 m h

/-- With a failing store, every run satisfies the C6 safety property. -/
theorem run_store_fail (opts : Opts) (w : World) (hs : w.storeInitOk = false) :
    storeFailSafe (run opts w).trace (run opts w).outcome := by
  unfold run
  by_cases hh : opts.help = true
  · simp [hh, storeFailSafe]
  · by_cases hg : opts.generateRegistration = true
    · simp only [hh, hg, if_true, if_false, Bool.false_eq_true]
      unfold runGenReg
      by_cases hex : w.fs.existsAt (jsOrStr opts.file "discord-registration.yaml") = true
      · simp [hh, hex, storeFailSafe]
      · cases hgen : generateRegistration opts w.tokens with
        | error e => simp [hh, hex, hgen, storeFailSafe]
        | ok p => cases p with
          | mk reg ts => simp [hh, hex, hgen, storeFailSafe]
    · simp only [hh, hg, if_false, Bool.false_eq_true]
      unfold runService
      by_cases hp : truthyOptNat (jsOrNat opts.port DiscordBridgeConfig.empty.bridgePort) = true
      · cases hl : w.fs.lookup (jsOrStr opts.config "config.yaml") with
        | none => simp [hh, hg, hp, hl, storeFailSafe]
        | some fd =>
          cases hd : fd.asConfigDoc with
          | scalar => simp [hh, hg, hp, hl, hd, storeFailSafe]
          | table fc =>
            by_cases hleg : hasLegacyKeys
                (applyEnvironmentOverrides (applyConfig DiscordBridgeConfig.empty fc) w.env) = true
            · simp [hh, hg, hp, hl, hd, hleg, storeFailSafe]
            · simp only [hh, hg, hp, hl, hd, hleg, Bool.false_eq_true, if_false, if_true,
                Bool.not_true, Bool.not_false, Bool.true_eq_false, List.cons_append,
                List.nil_append]
              exact storeFailSafe_prepend _ _ _
                (afterValidation_store_fail w _ _ _ hs)
      · simp [hh, hg, hp, storeFailSafe]

/-- C6: if store initialization fails on the run path, the failure is logged
as an error and the process exits with status 1; the transport is never
started and the started-listening log line is never emitted in such a run. -/
theorem store_init_failure_fatal (opts : Opts) (w : World) (hs : w.storeInitOk = false) :
    (Ev.storeInit ∈ (run opts w).trace →
      (run opts w).outcome = .exited 1
      ∧ Ev.logError ["Failed to init database. Exiting."] ∈ (run opts w).trace)
    ∧ Ev.appserviceBegin ∉ (run opts w).trace
    ∧ ∀ m, Ev.logInfo m ∈ (run opts w).trace → strHasSub m "Started listening" = false :=
  run_store_fail opts w hs

/-- C6 witness: a fully valid configuration whose store fails to initialize
exits with status 1 and logs the store failure. -/
theorem store_init_failure_fatal_witness :
    (run { port := some 6000 } { fs := c1World.fs, storeInitOk := false }).outcome = .exited 1
    ∧ Ev.logError ["Failed to init database. Exiting."]
        ∈ (run { port := some 6000 } { fs := c1World.fs, storeInitOk := false }).trace :=
  (store_init_failure_fatal { port := some 6000 } { fs := c1World.fs, storeInitOk := false }
    rfl).1 (by decide)
